import Mathlib

/-!
Verification of the spatial layout engine of the InventoryManager repository.

The engine lives in the RoomCanvas component: `rectanglesOverlap`,
`isInsideRoom`, `getRoomPath`, the door geometry table of the `Door`
component, and the drag / resize resolution logic of `handleMouseMove`.
All coordinates are embedded as rationals; JavaScript truthiness of
`number | null` fields is modelled with `Option ℚ` and `numTruthy`.
The source computes wall geometry in canvas units (room units times a
scale factor); the embedding is parametric in the coordinates, so the
same definitions cover both readings.
-/

namespace InventoryLayout

/-- The four possible corners of an L-shape cutout (`CutoutCorner` in types). -/
inductive CutoutCorner
  | top_left
  | top_right
  | bottom_left
  | bottom_right
deriving DecidableEq

/-- Room shape variants (`RoomShape` in types). -/
inductive RoomShape
  | rectangle
  | l_shape
deriving DecidableEq

/-- The six wall identifiers a door can sit on (`DoorWall` in types). -/
inductive DoorWall
  | north
  | south
  | east
  | west
  | cutout_horizontal
  | cutout_vertical
deriving DecidableEq

/-- JavaScript truthiness of a `number | null` value: `null` and `0` are falsy. -/
def numTruthy : Option ℚ → Bool
  | none => false
  | some v => decide (v ≠ 0)

/-- JavaScript `(doorWidth || 1)`: `null` and `0` fall back to `1`. -/
def orOne : Option ℚ → ℚ
  | none => 1
  | some v => if v = 0 then 1 else v

/-- The overlap tolerance constant of `rectanglesOverlap` (`const tolerance = 0.01`). -/
def tolerance : ℚ := 1 / 100

/-- Generalisation of the source's strict axis-aligned overlap test to an
arbitrary tolerance; the source test is this at `tolerance`, and the cutout
test inside `isInsideRoom` is this at `0`. -/
def rectanglesOverlapTol (tol x1 y1 w1 h1 x2 y2 w2 h2 : ℚ) : Bool :=
  decide (x1 < x2 + w2 - tol) && decide (x1 + w1 > x2 + tol) &&
  decide (y1 < y2 + h2 - tol) && decide (y1 + h1 > y2 + tol)

/-- `rectanglesOverlap` from RoomCanvas: strict overlap with a `0.01` tolerance
so touching edges do not count as overlap. -/
def rectanglesOverlap (x1 y1 w1 h1 x2 y2 w2 h2 : ℚ) : Bool :=
  decide (x1 < x2 + w2 - tolerance) && decide (x1 + w1 > x2 + tolerance) &&
  decide (y1 < y2 + h2 - tolerance) && decide (y1 + h1 > y2 + tolerance)

/-- The corner bounds `(cutoutX1, cutoutY1, cutoutX2, cutoutY2)` computed by the
`switch (cutoutCorner)` inside `isInsideRoom`. -/
structure CutoutRect where
  x1 : ℚ
  y1 : ℚ
  x2 : ℚ
  y2 : ℚ

/-- The cutout rectangle of each corner, as enumerated in `isInsideRoom`. -/
def cutoutBounds (roomWidth roomHeight cw ch : ℚ) : CutoutCorner → CutoutRect
  | CutoutCorner.top_right => ⟨roomWidth - cw, 0, roomWidth, ch⟩
  | CutoutCorner.top_left => ⟨0, 0, cw, ch⟩
  | CutoutCorner.bottom_right => ⟨roomWidth - cw, roomHeight - ch, roomWidth, roomHeight⟩
  | CutoutCorner.bottom_left => ⟨0, roomHeight - ch, cw, roomHeight⟩

/-- `isInsideRoom` from RoomCanvas: bounds test on the `W×H` box, then the
rectangle fallback (`shape === 'rectangle' || !cutoutWidth || !cutoutHeight ||
!cutoutCorner`), then the cutout-overlap test with strict inequalities. -/
def isInsideRoom (x y width height roomWidth roomHeight : ℚ)
    (shape : RoomShape) (cutoutWidth cutoutHeight : Option ℚ)
    (cutoutCorner : Option CutoutCorner) : Bool :=
  if x < 0 ∨ y < 0 ∨ x + width > roomWidth ∨ y + height > roomHeight then
    false
  else if shape = RoomShape.rectangle ∨ ¬ numTruthy cutoutWidth ∨
      ¬ numTruthy cutoutHeight ∨ cutoutCorner.isNone then
    true
  else
    let cw := cutoutWidth.getD 0
    let ch := cutoutHeight.getD 0
    let corner := cutoutCorner.getD CutoutCorner.top_right
    let b := cutoutBounds roomWidth roomHeight cw ch corner
    !(decide (x < b.x2) && decide (x + width > b.x1) &&
      decide (y < b.y2) && decide (y + height > b.y1))

/-- `getRoomPath` from RoomCanvas, modelled as the ordered list of path
vertices (the `M`/`L` points of the returned SVG path string).  The final
`match` arm mirrors the source's `default:` case, which returns the
top-right-style L path. -/
def getRoomPath (width height scale : ℚ) (shape : RoomShape)
    (cutoutWidth cutoutHeight : Option ℚ) (cutoutCorner : Option CutoutCorner) :
    List (ℚ × ℚ) :=
  let w := width * scale
  let h := height * scale
  if shape = RoomShape.rectangle ∨ ¬ numTruthy cutoutWidth ∨ ¬ numTruthy cutoutHeight then
    [(0, 0), (w, 0), (w, h), (0, h)]
  else
    let cw := cutoutWidth.getD 0 * scale
    let ch := cutoutHeight.getD 0 * scale
    match cutoutCorner with
    | some CutoutCorner.top_right =>
        [(0, 0), (w - cw, 0), (w - cw, ch), (w, ch), (w, h), (0, h)]
    | some CutoutCorner.top_left =>
        [(cw, 0), (w, 0), (w, h), (0, h), (0, ch), (cw, ch)]
    | some CutoutCorner.bottom_right =>
        [(0, 0), (w, 0), (w, h - ch), (w - cw, h - ch), (w - cw, h), (0, h)]
    | some CutoutCorner.bottom_left =>
        [(0, 0), (w, 0), (w, h), (cw, h), (cw, h - ch), (0, h - ch)]
    | none =>
        [(0, 0), (w - cw, 0), (w - cw, ch), (w, ch), (w, h), (0, h)]

/-- The `isLShape` guard used by both the `Door` component and the door-drag
branch of `handleMouseMove`:
`shape === 'l_shape' && cutoutWidth && cutoutHeight && cutoutCorner`. -/
def isLShapeActive (shape : RoomShape) (cutoutWidth cutoutHeight : Option ℚ)
    (cutoutCorner : Option CutoutCorner) : Bool :=
  decide (shape = RoomShape.l_shape) && numTruthy cutoutWidth &&
  numTruthy cutoutHeight && cutoutCorner.isSome

/-- The wall length / offset table of the door-drag branch of
`handleMouseMove` (the `switch (newWall)` computing `wallLengthScaled` and
`wallOffsetScaled`).  Returns the pair `(wallLength, wallOffset)`. -/
def wallLengthOffset (wall : DoorWall) (rw rh : ℚ) (shape : RoomShape)
    (cutoutWidth cutoutHeight : Option ℚ) (cutoutCorner : Option CutoutCorner) :
    ℚ × ℚ :=
  let cw := cutoutWidth.getD 0
  let ch := cutoutHeight.getD 0
  let isL := isLShapeActive shape cutoutWidth cutoutHeight cutoutCorner
  match wall with
  | DoorWall.north =>
      if isL ∧ (cutoutCorner = some CutoutCorner.top_left ∨
          cutoutCorner = some CutoutCorner.top_right) then
        (rw - cw, if cutoutCorner = some CutoutCorner.top_left then cw else 0)
      else
        (rw, 0)
  | DoorWall.south =>
      if isL ∧ (cutoutCorner = some CutoutCorner.bottom_left ∨
          cutoutCorner = some CutoutCorner.bottom_right) then
        (rw - cw, if cutoutCorner = some CutoutCorner.bottom_left then cw else 0)
      else
        (rw, 0)
  | DoorWall.west =>
      if isL ∧ (cutoutCorner = some CutoutCorner.top_left ∨
          cutoutCorner = some CutoutCorner.bottom_left) then
        (rh - ch, if cutoutCorner = some CutoutCorner.top_left then ch else 0)
      else
        (rh, 0)
  | DoorWall.east =>
      if isL ∧ (cutoutCorner = some CutoutCorner.top_right ∨
          cutoutCorner = some CutoutCorner.bottom_right) then
        (rh - ch, if cutoutCorner = some CutoutCorner.top_right then ch else 0)
      else
        (rh, 0)
  | DoorWall.cutout_horizontal =>
      (cw,
        if cutoutCorner = some CutoutCorner.top_left ∨
            cutoutCorner = some CutoutCorner.bottom_left then 0 else rw - cw)
  | DoorWall.cutout_vertical =>
      (ch,
        if cutoutCorner = some CutoutCorner.top_left ∨
            cutoutCorner = some CutoutCorner.top_right then 0 else rh - ch)

/-- The wall length / offset table of the `Door` component (the
`switch (wall)` computing `wallLength` and `wallOffset`, and for the internal
cutout walls `wallLength` with `wallStartX` / `wallStartY`).  On a cutout wall
with `!isLShape` the source `break`s with the zero initialisers, hence
`(0, 0)`. -/
def doorWallLengthOffset (wall : DoorWall) (rw rh : ℚ) (shape : RoomShape)
    (cutoutWidth cutoutHeight : Option ℚ) (cutoutCorner : Option CutoutCorner) :
    ℚ × ℚ :=
  let cw := cutoutWidth.getD 0
  let ch := cutoutHeight.getD 0
  let isL := isLShapeActive shape cutoutWidth cutoutHeight cutoutCorner
  match wall with
  | DoorWall.north =>
      if isL ∧ (cutoutCorner = some CutoutCorner.top_left ∨
          cutoutCorner = some CutoutCorner.top_right) then
        (rw - cw, if cutoutCorner = some CutoutCorner.top_left then cw else 0)
      else
        (rw, 0)
  | DoorWall.south =>
      if isL ∧ (cutoutCorner = some CutoutCorner.bottom_left ∨
          cutoutCorner = some CutoutCorner.bottom_right) then
        (rw - cw, if cutoutCorner = some CutoutCorner.bottom_left then cw else 0)
      else
        (rw, 0)
  | DoorWall.west =>
      if isL ∧ (cutoutCorner = some CutoutCorner.top_left ∨
          cutoutCorner = some CutoutCorner.bottom_left) then
        (rh - ch, if cutoutCorner = some CutoutCorner.top_left then ch else 0)
      else
        (rh, 0)
  | DoorWall.east =>
      if isL ∧ (cutoutCorner = some CutoutCorner.top_right ∨
          cutoutCorner = some CutoutCorner.bottom_right) then
        (rh - ch, if cutoutCorner = some CutoutCorner.top_right then ch else 0)
      else
        (rh, 0)
  | DoorWall.cutout_horizontal =>
      if isL then
        (cw,
          if cutoutCorner = some CutoutCorner.top_left ∨
              cutoutCorner = some CutoutCorner.bottom_left then 0 else rw - cw)
      else
        (0, 0)
  | DoorWall.cutout_vertical =>
      if isL then
        (ch,
          if cutoutCorner = some CutoutCorner.top_left ∨
              cutoutCorner = some CutoutCorner.top_right then 0 else rh - ch)
      else
        (0, 0)

/-- The `CutoutVertical` internal wall segment of the `Door` component:
`(wallX, wallStartY, wallLength)` for an active L-shape. -/
def cutoutVerticalSegment (rw rh cw ch : ℚ) (corner : CutoutCorner) : ℚ × ℚ × ℚ :=
  let wallX :=
    if corner = CutoutCorner.top_left ∨ corner = CutoutCorner.bottom_left then cw
    else rw - cw
  let wallStartY :=
    if corner = CutoutCorner.top_left ∨ corner = CutoutCorner.top_right then 0
    else rh - ch
  (wallX, wallStartY, ch)

/-- Normalising a pointer coordinate along a wall in `handleMouseMove`:
`newPos = (local - wallOffset) / wallLength`. -/
def normalizeDoorPos (wallLength wallOffset coord : ℚ) : ℚ :=
  (coord - wallOffset) / wallLength

/-- The door position clamp at the end of the door-drag branch:
`doorW = (doorWidth || 1) / effectiveWallLength` and
`newPos = max(doorW/2 + 0.02, min(1 - doorW/2 - 0.02, newPos))`. -/
def clampDoorPosition (doorWidth : Option ℚ) (effectiveWallLength newPos : ℚ) : ℚ :=
  let doorW := orOne doorWidth / effectiveWallLength
  max (doorW / 2 + 1 / 50) (min (1 - doorW / 2 - 1 / 50) newPos)

/-- The hinge coordinate along the wall in the `Door` component:
`hinge = wallOffset + position * wallLength - dw / 2`.  The centre of the door
opening is this plus `dw / 2`. -/
def doorHingeCoord (wallLength wallOffset position doorWidth : ℚ) : ℚ :=
  wallOffset + position * wallLength - doorWidth / 2

/-- A placed rectangle (storage unit or block): id, top-left position, size. -/
structure Rect where
  id : String
  x : ℚ
  y : ℚ
  width : ℚ
  height : ℚ

/-- The `isValidPosition` helper of the unit/block drag branches of
`handleMouseMove`: inside the room, no overlap with any same-kind rectangle of
a different id, no overlap with any other-kind rectangle.  For a unit drag
`sameKind` is the unit list and `otherKind` the block list; for a block drag
the roles are swapped, exactly as in the two (otherwise identical) branches. -/
def isValidPosition (self : Rect) (x y : ℚ) (sameKind otherKind : List Rect)
    (roomWidth roomHeight : ℚ) (shape : RoomShape)
    (cutoutWidth cutoutHeight : Option ℚ) (cutoutCorner : Option CutoutCorner) :
    Bool :=
  isInsideRoom x y self.width self.height roomWidth roomHeight shape
      cutoutWidth cutoutHeight cutoutCorner &&
  !(sameKind.any fun other =>
      decide (other.id ≠ self.id) &&
      rectanglesOverlap x y self.width self.height other.x other.y
        other.width other.height) &&
  !(otherKind.any fun r =>
      rectanglesOverlap x y self.width self.height r.x r.y r.width r.height)

/-- One drag tick of `handleMouseMove` for a unit or block: the raw pointer
position is clamped to `[0, W-w] × [0, H-h]`; if the clamped proposal is valid
it is committed; otherwise the two axis fallbacks are applied independently
(`finalX` slides iff `(clampedX, currentY)` is valid, `finalY` slides iff
`(currentX, clampedY)` is valid). -/
def resolveDrag (self : Rect) (sameKind otherKind : List Rect)
    (roomWidth roomHeight : ℚ) (shape : RoomShape)
    (cutoutWidth cutoutHeight : Option ℚ) (cutoutCorner : Option CutoutCorner)
    (currentX currentY newX newY : ℚ) : ℚ × ℚ :=
  let clampedX := max 0 (min (roomWidth - self.width) newX)
  let clampedY := max 0 (min (roomHeight - self.height) newY)
  if isValidPosition self clampedX clampedY sameKind otherKind roomWidth
      roomHeight shape cutoutWidth cutoutHeight cutoutCorner then
    (clampedX, clampedY)
  else
    (if isValidPosition self clampedX currentY sameKind otherKind roomWidth
        roomHeight shape cutoutWidth cutoutHeight cutoutCorner then clampedX
      else currentX,
     if isValidPosition self currentX clampedY sameKind otherKind roomWidth
        roomHeight shape cutoutWidth cutoutHeight cutoutCorner then clampedY
      else currentY)

/-- JavaScript `Math.round(q * 10) / 10` (round half toward +infinity). -/
def roundTenth (q : ℚ) : ℚ := ((⌊q * 10 + 1 / 2⌋ : ℤ) : ℚ) / 10

/-- One resize tick of `handleMouseMove` (SE handle): floor at `0.5`, round to
`0.1`, cap at the room's bounding box from the fixed origin, reset to the
previous committed size if the result leaves the room shape, then reset to the
previous committed size on any collision.  `prevWidth`/`prevHeight` model
`localSize?.width || element.width` (the last committed size of the gesture).
`sameKind` carries the id-filtered collision list and `otherKind` the
unfiltered one, as in the `resize-unit` / `resize-block` branches. -/
def resolveResize (self : Rect) (prevWidth prevHeight startWidth startHeight
    deltaX deltaY : ℚ) (sameKind otherKind : List Rect)
    (roomWidth roomHeight : ℚ) (shape : RoomShape)
    (cutoutWidth cutoutHeight : Option ℚ) (cutoutCorner : Option CutoutCorner) :
    ℚ × ℚ :=
  let newWidth1 := roundTenth (max (1 / 2) (startWidth + deltaX))
  let newHeight1 := roundTenth (max (1 / 2) (startHeight + deltaY))
  let newWidth2 := min newWidth1 (roomWidth - self.x)
  let newHeight2 := min newHeight1 (roomHeight - self.y)
  let afterRoomCheck :=
    if isInsideRoom self.x self.y newWidth2 newHeight2 roomWidth roomHeight
        shape cutoutWidth cutoutHeight cutoutCorner then
      (newWidth2, newHeight2)
    else
      (prevWidth, prevHeight)
  let collides :=
    (sameKind.any fun other =>
      decide (other.id ≠ self.id) &&
      rectanglesOverlap self.x self.y afterRoomCheck.1 afterRoomCheck.2
        other.x other.y other.width other.height) ||
    (otherKind.any fun r =>
      rectanglesOverlap self.x self.y afterRoomCheck.1 afterRoomCheck.2
        r.x r.y r.width r.height)
  if collides then (prevWidth, prevHeight) else afterRoomCheck

/-- Validity of a candidate size at the element's fixed origin: inside the
room shape and collision-free, exactly the two checks of the resize branch. -/
def isValidSize (self : Rect) (w h : ℚ) (sameKind otherKind : List Rect)
    (roomWidth roomHeight : ℚ) (shape : RoomShape)
    (cutoutWidth cutoutHeight : Option ℚ) (cutoutCorner : Option CutoutCorner) :
    Bool :=
  isInsideRoom self.x self.y w h roomWidth roomHeight shape cutoutWidth
      cutoutHeight cutoutCorner &&
  !((sameKind.any fun other =>
      decide (other.id ≠ self.id) &&
      rectanglesOverlap self.x self.y w h other.x other.y other.width
        other.height) ||
    (otherKind.any fun r =>
      rectanglesOverlap self.x self.y w h r.x r.y r.width r.height))

/-- The leg-based configuration of the L-shape editor (`LShapeConfig`). -/
structure LShapeConfig where
  orientation : CutoutCorner
  verticalLegWidth : ℚ
  verticalLegHeight : ℚ
  horizontalLegWidth : ℚ
  horizontalLegHeight : ℚ

/-- The backend room-shape record produced by the L-shape editor. -/
structure BackendShape where
  width : ℚ
  height : ℚ
  cutoutWidth : ℚ
  cutoutHeight : ℚ

/-- `legsToBackend` from LShapeEditor: bounding box from the two legs, cutout
as the missing rectangle, clamped non-negative with `Math.max(0, ·)`.  The
source's orientation conditional has identical branches; it is kept as
written. -/
def legsToBackend (config : LShapeConfig) : BackendShape :=
  let width := max config.verticalLegWidth config.horizontalLegWidth
  let height := config.verticalLegHeight + config.horizontalLegHeight
  let cutoutWidth0 :=
    if config.orientation = CutoutCorner.top_right ∨
        config.orientation = CutoutCorner.bottom_right then
      width - config.verticalLegWidth
    else
      width - config.verticalLegWidth
  let cutoutHeight0 := height - config.horizontalLegHeight
  ⟨width, height, max 0 cutoutWidth0, max 0 cutoutHeight0⟩

/-- Spec-words model of `rectangle_is_inside` (section 4.1 of the spec): the
rectangle lies within `[0,W] × [0,H]` and does not overlap the cutout
rectangle, with the cutout-overlap test run at tolerance `tol`.  The spec
asserts the engine uses this at `tol = 0.01`. -/
def rectangleIsInsideSpec (tol x y width height roomWidth roomHeight cw ch : ℚ)
    (corner : CutoutCorner) : Bool :=
  let b := cutoutBounds roomWidth roomHeight cw ch corner
  decide (0 ≤ x) && decide (0 ≤ y) && decide (x + width ≤ roomWidth) &&
  decide (y + height ≤ roomHeight) &&
  !(rectanglesOverlapTol tol x y width height b.x1 b.y1 (b.x2 - b.x1) (b.y2 - b.y1))

/-- Geometric fact (not from the code): which perimeter walls are adjacent to
each cutout corner. -/
def adjacentToCorner : CutoutCorner → DoorWall → Bool
  | CutoutCorner.top_left, DoorWall.north => true
  | CutoutCorner.top_right, DoorWall.north => true
  | CutoutCorner.bottom_left, DoorWall.south => true
  | CutoutCorner.bottom_right, DoorWall.south => true
  | CutoutCorner.top_right, DoorWall.east => true
  | CutoutCorner.bottom_right, DoorWall.east => true
  | CutoutCorner.top_left, DoorWall.west => true
  | CutoutCorner.bottom_left, DoorWall.west => true
  | _, _ => false

/-- Geometric fact: whether the cutout sits at the wall's start (the
low-coordinate end of the wall's run). -/
def cutoutAtWallStart : CutoutCorner → DoorWall → Bool
  | CutoutCorner.top_left, DoorWall.north => true
  | CutoutCorner.bottom_left, DoorWall.south => true
  | CutoutCorner.top_right, DoorWall.east => true
  | CutoutCorner.top_left, DoorWall.west => true
  | _, _ => false

/-- The cutout's extent along a wall's direction: `cw` for horizontal walls,
`ch` for vertical ones. -/
def wallExtent (cw ch : ℚ) : DoorWall → ℚ
  | DoorWall.north => cw
  | DoorWall.south => cw
  | _ => ch

/-- The full (unreduced) length of a perimeter wall. -/
def wallFullLength (rw rh : ℚ) : DoorWall → ℚ
  | DoorWall.north => rw
  | DoorWall.south => rw
  | _ => rh

/-- Commit-or-freeze on a boolean collision flag: branching on the flag and
branching on its negation pick out the same pair of outcomes. -/
theorem ite_bool_freeze {α : Type} (c : Bool) (a b : α) :
    (if c = true then a else b) = (if (!c) = true then b else a) := by
  cases c <;> simp

/-- Concrete drag scenario: a `1 × 1` unit currently at `(0, 0)` in a plain
`10 × 10` rectangle room. -/
def dragUnitC : Rect := ⟨"a", 0, 0, 1, 1⟩

/-- Concrete drag scenario: a `1 × 1` block obstacle at `(1.5, 1.5)`. -/
def dragBlockC : Rect := ⟨"b", 3/2, 3/2, 1, 1⟩

/-- Claim C1: during a drag tick the resolver is claimed to try the four
candidates in order — proposed, `(proposed.x, current.y)`,
`(current.x, proposed.y)`, current — committing the first valid one.  The code
instead applies the two axis fallbacks independently: here the proposed
position `(1, 1)` is invalid and the horizontal slide `(1, 0)` is valid, so
the claim requires the commit to be `(1, 0)`, yet the code commits `(1, 1)`
(both fallbacks fire and recompose the rejected proposal). -/
theorem drag_fallback_commits_rejected_proposal :
    isValidPosition dragUnitC 1 1 [dragUnitC] [dragBlockC] 10 10
        RoomShape.rectangle none none none = false ∧
    isValidPosition dragUnitC 1 0 [dragUnitC] [dragBlockC] 10 10
        RoomShape.rectangle none none none = true ∧
    resolveDrag dragUnitC [dragUnitC] [dragBlockC] 10 10 RoomShape.rectangle
        none none none 0 0 1 1 = (1, 1) := by
  refine ⟨?_, ?_, ?_⟩ <;>
    norm_num [resolveDrag, isValidPosition, isInsideRoom, rectanglesOverlap,
      tolerance, numTruthy, dragUnitC, dragBlockC, max_def, min_def]

/-- Claim C2: every position the resolver commits is claimed to be valid.
At the same drag tick as above the code commits `(1, 1)`, which overlaps the
block at `(1.5, 1.5, 1, 1)` by `0.5` on both axes, so the committed layout is
invalid. -/
theorem drag_commit_violates_validity :
    resolveDrag dragUnitC [dragUnitC] [dragBlockC] 10 10 RoomShape.rectangle
        none none none 0 0 1 1 = (1, 1) ∧
    isValidPosition dragUnitC 1 1 [dragUnitC] [dragBlockC] 10 10
        RoomShape.rectangle none none none = false ∧
    rectanglesOverlap 1 1 1 1 (3/2) (3/2) 1 1 = true := by
  refine ⟨?_, ?_, ?_⟩ <;>
    norm_num [resolveDrag, isValidPosition, isInsideRoom, rectanglesOverlap,
      tolerance, numTruthy, dragUnitC, dragBlockC, max_def, min_def]

/-- Claim C3 counterexample: with a door of width `2` on a wall of effective
length `1`, the clamp margins cross (`doorW/2 + 0.02 = 1.02` exceeds
`1 - doorW/2 - 0.02 = -0.02`), and the code silently returns the degenerate
lower margin `51/50` for every input position instead of rejecting. -/
theorem door_clamp_no_reject_counterexample :
    clampDoorPosition (some 2) 1 (1/10) = 51/50 ∧
    clampDoorPosition (some 2) 1 (9/10) = 51/50 ∧
    ((2:ℚ)/1/2 + 1/50 > 1 - 2/1/2 - 1/50) := by
  refine ⟨?_, ?_, by norm_num⟩ <;>
    norm_num [clampDoorPosition, orOne, max_def, min_def]

/-- Claim C4 counterexample: in the `10 × 10` room with a `4 × 4` bottom-right
cutout, the candidate `(4, 4, 2.005, 2.005)` penetrates the cutout by only
`0.005 < 0.01`.  The spec-words inside test with the `0.01` tolerance accepts
it, but the code's cutout test uses strict inequalities with no tolerance and
rejects it. -/
theorem inside_room_cutout_tolerance_counterexample :
    isInsideRoom 4 4 (401/200) (401/200) 10 10 RoomShape.l_shape (some 4)
        (some 4) (some CutoutCorner.bottom_right) = false ∧
    rectangleIsInsideSpec tolerance 4 4 (401/200) (401/200) 10 10 4 4
        CutoutCorner.bottom_right = true := by
  constructor
  · norm_num [isInsideRoom, numTruthy, cutoutBounds]
    decide
  · norm_num [rectangleIsInsideSpec, rectanglesOverlapTol, tolerance,
      cutoutBounds]

/-- Claim C5 counterexample: `legsToBackend` does not reject malformed shapes.
With both legs `5` wide the produced cutout width is `0`, violating the
invariant `0 < cutout_width`, and the value is returned (and later consumed by
the geometry code) rather than rejected. -/
theorem legs_to_backend_accepts_zero_cutout :
    (legsToBackend ⟨CutoutCorner.bottom_right, 5, 5, 5, 5⟩).cutoutWidth = 0 ∧
    ¬ (0 < (legsToBackend ⟨CutoutCorner.bottom_right, 5, 5, 5, 5⟩).cutoutWidth) ∧
    (legsToBackend ⟨CutoutCorner.bottom_right, 5, 5, 5, 5⟩).width = 5 ∧
    isInsideRoom 9 9 1 1 10 10 RoomShape.l_shape (some 0) (some 5)
        (some CutoutCorner.bottom_right) = true := by
  refine ⟨?_, ?_, ?_, ?_⟩ <;>
    norm_num [legsToBackend, isInsideRoom, numTruthy, max_def]

/-- Claim C8 counterexample: for the thin rectangle `(5, 5, 0.005, 0.005)`
against `(4, 4, 3, 3)` the geometric overlap on the x axis is `0.005 ≤ 0.01`,
yet `rectanglesOverlap` returns `true` — so "returns false whenever the
overlap on some axis is at most the tolerance" fails. -/
theorem rectangles_overlap_thin_counterexample :
    rectanglesOverlap 5 5 (1/200) (1/200) 4 4 3 3 = true ∧
    min ((5:ℚ) + 1/200) (4 + 3) - max 5 4 ≤ 1/100 := by
  constructor
  · norm_num [rectanglesOverlap, tolerance]
  · norm_num [max_def, min_def]

/-- Claim C10 counterexample: with `shape = 'l_shape'`, cutout dimensions
`4 × 4` but a missing cutout corner, `getRoomPath` does not fall back to the
rectangle outline — its `switch` hits the `default:` arm and draws the
top-right L outline, while the claim says every geometry operation behaves
exactly as for a rectangle room. -/
theorem room_path_missing_corner_counterexample :
    getRoomPath 10 10 1 RoomShape.l_shape (some 4) (some 4) none ≠
      getRoomPath 10 10 1 RoomShape.rectangle none none none ∧
    getRoomPath 10 10 1 RoomShape.l_shape (some 4) (some 4) none =
      [(0, 0), (6, 0), (6, 4), (10, 4), (10, 10), (0, 10)] := by
  constructor
  · norm_num [getRoomPath, numTruthy]
    decide
  · norm_num [getRoomPath, numTruthy]
    decide

/-- Claim C3 (amended): when the door's width is at least the wall's effective
length, the code does not reject — the clamp margins cross and the position is
silently clamped to the degenerate lower margin `doorW/2 + 0.02`, the same
value for every input position. -/
theorem door_clamp_degenerate_when_too_wide (dw len p : ℚ)
    (hlen : 0 < len) (hwide : len ≤ dw) :
    clampDoorPosition (some dw) len p = dw / len / 2 + 1/50 := by
  have hdw : ¬ dw = 0 := by
    have : 0 < dw := lt_of_lt_of_le hlen hwide
    exact ne_of_gt this
  have ho : orOne (some dw) = dw := by simp [orOne, hdw]
  have h1 : (1:ℚ) ≤ dw / len := (one_le_div hlen).2 hwide
  have hle : min (1 - dw / len / 2 - 1/50) p ≤ dw / len / 2 + 1/50 := by
    have := min_le_left (1 - dw / len / 2 - 1/50) p
    linarith
  simp only [clampDoorPosition, ho]
  exact max_eq_left hle

/-- Witness for `door_clamp_degenerate_when_too_wide` at a wall of length `1`
and a door of width `2`. -/
theorem door_clamp_degenerate_when_too_wide_witness :
    (0:ℚ) < 1 ∧ (1:ℚ) ≤ 2 ∧
    clampDoorPosition (some 2) 1 (1/2) = 2/1/2 + 1/50 :=
  ⟨by norm_num, by norm_num,
    door_clamp_degenerate_when_too_wide 2 1 (1/2) (by norm_num) (by norm_num)⟩

/-- Claim C4 (amended): the inside test equals the spec's formulation with the
cutout-overlap run at tolerance `0` (strict inequalities), not at `0.01`:
touching the cutout edge is accepted, but any positive penetration — even one
below the overlap tolerance — is rejected. -/
theorem inside_room_cutout_strict
    (x y width height roomWidth roomHeight cw ch : ℚ) (corner : CutoutCorner)
    (hcw : cw ≠ 0) (hch : ch ≠ 0) :
    isInsideRoom x y width height roomWidth roomHeight RoomShape.l_shape
        (some cw) (some ch) (some corner) =
      rectangleIsInsideSpec 0 x y width height roomWidth roomHeight cw ch
        corner := by
  simp only [isInsideRoom, rectangleIsInsideSpec, rectanglesOverlapTol,
    Option.getD_some]
  split_ifs with hb hg
  · rcases hb with h | h | h | h <;> simp [decide_eq_false (not_le.2 h)]
  · exfalso
    rcases hg with h | h | h | h
    · exact absurd h (by decide)
    · exact h (by simp [numTruthy, hcw])
    · exact h (by simp [numTruthy, hch])
    · simp at h
  · push_neg at hb
    obtain ⟨h1, h2, h3, h4⟩ := hb
    set B := cutoutBounds roomWidth roomHeight cw ch corner with hB
    have e1 : B.x1 + (B.x2 - B.x1) - 0 = B.x2 := by ring
    have e2 : B.x1 + 0 = B.x1 := by ring
    have e3 : B.y1 + (B.y2 - B.y1) - 0 = B.y2 := by ring
    have e4 : B.y1 + 0 = B.y1 := by ring
    rw [e1, e2, e3, e4]
    simp [h1, h2, h3, h4]

/-- Witness for `inside_room_cutout_strict` on the `10 × 10` room with the
`4 × 4` bottom-right cutout. -/
theorem inside_room_cutout_strict_witness :
    (4:ℚ) ≠ 0 ∧
    isInsideRoom 0 0 1 1 10 10 RoomShape.l_shape (some 4) (some 4)
        (some CutoutCorner.bottom_right) =
      rectangleIsInsideSpec 0 0 0 1 1 10 10 4 4 CutoutCorner.bottom_right :=
  ⟨by norm_num,
    inside_room_cutout_strict 0 0 1 1 10 10 4 4 CutoutCorner.bottom_right
      (by norm_num) (by norm_num)⟩

/-- Claim C5 (amended): `legsToBackend` never rejects; it clamps the cutout
to be non-negative.  With positive leg dimensions the produced cutout always
satisfies `0 ≤ cw < W` and `0 ≤ ch < H`, but the strict lower bound of the
shape invariant can fail (`cw = 0` whenever the horizontal leg is no wider
than the vertical leg), and such values flow into the geometry code, which
treats a zero cutout as a plain rectangle. -/
theorem legs_to_backend_clamps_cutout (config : LShapeConfig)
    (hvw : 0 < config.verticalLegWidth) (hvh : 0 < config.verticalLegHeight)
    (hhh : 0 < config.horizontalLegHeight) :
    0 ≤ (legsToBackend config).cutoutWidth ∧
    (legsToBackend config).cutoutWidth < (legsToBackend config).width ∧
    0 ≤ (legsToBackend config).cutoutHeight ∧
    (legsToBackend config).cutoutHeight < (legsToBackend config).height := by
  simp only [legsToBackend, ite_self]
  have hW : 0 < max config.verticalLegWidth config.horizontalLegWidth :=
    lt_of_lt_of_le hvw (le_max_left _ _)
  refine ⟨le_max_left _ _, ?_, le_max_left _ _, ?_⟩
  · rcases le_or_lt (max config.verticalLegWidth config.horizontalLegWidth -
        config.verticalLegWidth) 0 with h | h
    · rw [max_eq_left h]
      exact hW
    · rw [max_eq_right h.le]
      linarith
  · have e : config.verticalLegHeight + config.horizontalLegHeight -
        config.horizontalLegHeight = config.verticalLegHeight := by ring
    rw [e, max_eq_right hvh.le]
    linarith

/-- Witness for `legs_to_backend_clamps_cutout` at the leg configuration
`(top_left, 2, 3, 5, 4)`. -/
theorem legs_to_backend_clamps_cutout_witness :
    0 ≤ (legsToBackend ⟨CutoutCorner.top_left, 2, 3, 5, 4⟩).cutoutWidth ∧
    (legsToBackend ⟨CutoutCorner.top_left, 2, 3, 5, 4⟩).cutoutWidth <
      (legsToBackend ⟨CutoutCorner.top_left, 2, 3, 5, 4⟩).width ∧
    0 ≤ (legsToBackend ⟨CutoutCorner.top_left, 2, 3, 5, 4⟩).cutoutHeight ∧
    (legsToBackend ⟨CutoutCorner.top_left, 2, 3, 5, 4⟩).cutoutHeight <
      (legsToBackend ⟨CutoutCorner.top_left, 2, 3, 5, 4⟩).height :=
  legs_to_backend_clamps_cutout ⟨CutoutCorner.top_left, 2, 3, 5, 4⟩
    (by norm_num) (by norm_num) (by norm_num)

/-- Claim C8 (amended): for rectangles all of whose sides exceed the `0.01`
tolerance, `rectanglesOverlap` returns `true` exactly when the geometric
overlap exceeds `0.01` on both axes (so flush-tiled rectangles never count as
overlapping); for degenerate rectangles with a side at most `0.01` the test
can report an overlap although the geometric overlap on an axis is within the
tolerance. -/
theorem rectangles_overlap_gap_characterization
    (x1 y1 w1 h1 x2 y2 w2 h2 : ℚ)
    (hw1 : 1/100 < w1) (hh1 : 1/100 < h1) (hw2 : 1/100 < w2)
    (hh2 : 1/100 < h2) :
    rectanglesOverlap x1 y1 w1 h1 x2 y2 w2 h2 = true ↔
      (1/100 < min (x1 + w1) (x2 + w2) - max x1 x2 ∧
       1/100 < min (y1 + h1) (y2 + h2) - max y1 y2) := by
  unfold rectanglesOverlap tolerance
  simp only [Bool.and_eq_true, decide_eq_true_eq, gt_iff_lt]
  constructor
  · rintro ⟨⟨⟨ha, hb⟩, hc⟩, hd⟩
    constructor
    · rcases max_cases x1 x2 with ⟨hm, _⟩ | ⟨hm, _⟩ <;>
        rcases min_cases (x1 + w1) (x2 + w2) with ⟨hn, _⟩ | ⟨hn, _⟩ <;>
        rw [hm, hn] <;> linarith
    · rcases max_cases y1 y2 with ⟨hm, _⟩ | ⟨hm, _⟩ <;>
        rcases min_cases (y1 + h1) (y2 + h2) with ⟨hn, _⟩ | ⟨hn, _⟩ <;>
        rw [hm, hn] <;> linarith
  · rintro ⟨hx, hy⟩
    have l1 := min_le_left (x1 + w1) (x2 + w2)
    have l2 := min_le_right (x1 + w1) (x2 + w2)
    have l3 := le_max_left x1 x2
    have l4 := le_max_right x1 x2
    have l5 := min_le_left (y1 + h1) (y2 + h2)
    have l6 := min_le_right (y1 + h1) (y2 + h2)
    have l7 := le_max_left y1 y2
    have l8 := le_max_right y1 y2
    refine ⟨⟨⟨?_, ?_⟩, ?_⟩, ?_⟩ <;> linarith

/-- Witness for `rectangles_overlap_gap_characterization` at two unit
rectangles overlapping by `0.5` on the x axis. -/
theorem rectangles_overlap_gap_characterization_witness :
    (1:ℚ)/100 < 1 ∧
    (rectanglesOverlap 0 0 1 1 (1/2) 0 1 1 = true ↔
      (1/100 < min ((0:ℚ) + 1) (1/2 + 1) - max 0 (1/2) ∧
       1/100 < min ((0:ℚ) + 1) (0 + 1) - max 0 0)) :=
  ⟨by norm_num,
    rectangles_overlap_gap_characterization 0 0 1 1 (1/2) 0 1 1
      (by norm_num) (by norm_num) (by norm_num) (by norm_num)⟩

/-- Claim C6: the wall-segment table of the code.  Generally, a perimeter wall
adjacent to the cutout corner has its effective length reduced by the cutout's
extent along the wall, with an offset equal to that extent exactly when the
cutout sits at the wall's start; non-adjacent walls keep full length and zero
offset.  Concretely (Scenario D), the `10 × 10` room with a `4 × 4`
bottom-right cutout yields a South wall of length `6` with offset `0` and a
CutoutVertical segment at `x = 6` starting at `y = 6` with length `4`
(spanning `y ∈ [6, 10]`). -/
theorem wall_segments_cutout_table
    (rw rh cw ch : ℚ) (corner : CutoutCorner) (wall : DoorWall)
    (hcw : cw ≠ 0) (hch : ch ≠ 0)
    (hperim : wall = DoorWall.north ∨ wall = DoorWall.south ∨
      wall = DoorWall.east ∨ wall = DoorWall.west) :
    (wallLengthOffset wall rw rh RoomShape.l_shape (some cw) (some ch)
        (some corner) =
      (if adjacentToCorner corner wall then
          wallFullLength rw rh wall - wallExtent cw ch wall
        else wallFullLength rw rh wall,
       if adjacentToCorner corner wall && cutoutAtWallStart corner wall then
          wallExtent cw ch wall
        else 0)) ∧
    wallLengthOffset DoorWall.south 10 10 RoomShape.l_shape (some 4) (some 4)
        (some CutoutCorner.bottom_right) = (6, 0) ∧
    cutoutVerticalSegment 10 10 4 4 CutoutCorner.bottom_right = (6, 6, 4) := by
  refine ⟨?_, ?_, ?_⟩
  · rcases hperim with h | h | h | h <;> subst h <;> cases corner <;>
      simp [wallLengthOffset, isLShapeActive, numTruthy, adjacentToCorner,
        cutoutAtWallStart, wallExtent, wallFullLength, hcw, hch]
  · norm_num [wallLengthOffset, isLShapeActive, numTruthy]
    decide
  · norm_num [cutoutVerticalSegment]
    decide

/-- Witness for `wall_segments_cutout_table`: north wall of a `10 × 10` room
with a `4 × 4` top-left cutout. -/
theorem wall_segments_cutout_table_witness :
    (4:ℚ) ≠ 0 ∧
    ((wallLengthOffset DoorWall.north 10 10 RoomShape.l_shape (some 4)
        (some 4) (some CutoutCorner.top_left) =
      (if adjacentToCorner CutoutCorner.top_left DoorWall.north then
          wallFullLength 10 10 DoorWall.north -
            wallExtent 4 4 DoorWall.north
        else wallFullLength 10 10 DoorWall.north,
       if adjacentToCorner CutoutCorner.top_left DoorWall.north &&
          cutoutAtWallStart CutoutCorner.top_left DoorWall.north then
          wallExtent 4 4 DoorWall.north
        else 0)) ∧
    wallLengthOffset DoorWall.south 10 10 RoomShape.l_shape (some 4) (some 4)
        (some CutoutCorner.bottom_right) = (6, 0) ∧
    cutoutVerticalSegment 10 10 4 4 CutoutCorner.bottom_right = (6, 6, 4)) :=
  ⟨by norm_num,
    wall_segments_cutout_table 10 10 4 4 CutoutCorner.top_left DoorWall.north
      (by norm_num) (by norm_num) (Or.inl rfl)⟩

/-- Claim C7: a resize tick commits the proposal — floored at `0.5`, rounded
to `0.1`, capped to the room's bounding box from the fixed origin — exactly
when it is valid (inside the room shape and collision-free), and otherwise
keeps the previous committed size; and Scenario F: resizing a `2 × 2` block
at `(0, 0)` to `3 × 3` against a sibling at `(2.5, 0, 2, 2)` keeps `(2, 2)`. -/
theorem resize_freeze_on_invalid :
    (∀ (self : Rect) (prevW prevH startW startH dX dY : ℚ)
        (sameKind otherKind : List Rect) (roomW roomH : ℚ)
        (shape : RoomShape) (cw ch : Option ℚ) (corner : Option CutoutCorner),
      resolveResize self prevW prevH startW startH dX dY sameKind otherKind
          roomW roomH shape cw ch corner =
        (if isValidSize self
            (min (roundTenth (max (1/2) (startW + dX))) (roomW - self.x))
            (min (roundTenth (max (1/2) (startH + dY))) (roomH - self.y))
            sameKind otherKind roomW roomH shape cw ch corner then
          (min (roundTenth (max (1/2) (startW + dX))) (roomW - self.x),
           min (roundTenth (max (1/2) (startH + dY))) (roomH - self.y))
        else (prevW, prevH))) ∧
    resolveResize ⟨"blk", 0, 0, 2, 2⟩ 2 2 2 2 1 1
        [⟨"blk", 0, 0, 2, 2⟩, ⟨"sib", 5/2, 0, 2, 2⟩] [] 10 10
        RoomShape.rectangle none none none = (2, 2) := by
  constructor
  · intro self prevW prevH startW startH dX dY sameKind otherKind roomW
      roomH shape cw ch corner
    rcases Bool.eq_false_or_eq_true
        (isInsideRoom self.x self.y
          (min (roundTenth (max (1/2) (startW + dX))) (roomW - self.x))
          (min (roundTenth (max (1/2) (startH + dY))) (roomH - self.y))
          roomW roomH shape cw ch corner) with hin | hin
    · simp only [resolveResize, isValidSize, hin, eq_self_iff_true, if_true,
        Bool.true_and]
      exact ite_bool_freeze _ _ _
    · simp only [resolveResize, isValidSize, hin, eq_self_iff_true, if_true,
        Bool.true_and]
      split_ifs <;> simp_all
  · norm_num [resolveResize, roundTenth, isInsideRoom, rectanglesOverlap,
      tolerance, numTruthy, max_def, min_def]
    decide

/-- On every wall whose `Door`-component effective length is positive, the
normalisation table of `handleMouseMove` agrees with the rendering table of
the `Door` component (the two tables are textually duplicated in the source;
they differ only on cutout walls of a non-L-shape room, where the `Door` one
degenerates to length `0`). -/
theorem door_tables_agree (wall : DoorWall) (rw rh : ℚ) (shape : RoomShape)
    (cwo cho : Option ℚ) (corner : Option CutoutCorner)
    (hpos : 0 < (doorWallLengthOffset wall rw rh shape cwo cho corner).1) :
    wallLengthOffset wall rw rh shape cwo cho corner =
      doorWallLengthOffset wall rw rh shape cwo cho corner := by
  cases wall <;>
    simp only [wallLengthOffset, doorWallLengthOffset] at hpos ⊢ <;>
    rcases Bool.eq_false_or_eq_true (isLShapeActive shape cwo cho corner)
      with h | h <;>
    simp [h] at hpos ⊢

/-- Claim C9: for a point whose projection on the wall lies within the door
clamp margins, normalising it to a fraction along the wall (subtracting the
wall offset and dividing by the effective length, as in `handleMouseMove`) and
re-deriving the door centre from that fraction (as in the `Door` component)
reproduces the projected coordinate exactly. -/
theorem door_position_round_trip
    (wall : DoorWall) (rw rh : ℚ) (shape : RoomShape) (cwo cho : Option ℚ)
    (corner : Option CutoutCorner) (len off coord dw : ℚ)
    (hL : doorWallLengthOffset wall rw rh shape cwo cho corner = (len, off))
    (hlen : 0 < len) (hdw : 0 < dw)
    (hlo : dw / len / 2 + 1/50 ≤ (coord - off) / len)
    (hhi : (coord - off) / len ≤ 1 - dw / len / 2 - 1/50) :
    doorHingeCoord len off
        (clampDoorPosition (some dw) len
          (normalizeDoorPos
            (wallLengthOffset wall rw rh shape cwo cho corner).1
            (wallLengthOffset wall rw rh shape cwo cho corner).2 coord)) dw
      + dw / 2 = coord := by
  have hAgree : wallLengthOffset wall rw rh shape cwo cho corner = (len, off) := by
    rw [door_tables_agree wall rw rh shape cwo cho corner
      (by rw [hL]; exact hlen), hL]
  rw [hAgree]
  have hdw0 : ¬ dw = 0 := ne_of_gt hdw
  have ho : orOne (some dw) = dw := by simp [orOne, hdw0]
  have hnorm : normalizeDoorPos ((len, off)).1 ((len, off)).2 coord =
      (coord - off) / len := rfl
  rw [hnorm]
  have hclamp : clampDoorPosition (some dw) len ((coord - off) / len) =
      (coord - off) / len := by
    simp only [clampDoorPosition, ho]
    rw [min_eq_right hhi, max_eq_right hlo]
  rw [hclamp]
  simp only [doorHingeCoord]
  have hmul : (coord - off) / len * len = coord - off :=
    div_mul_cancel₀ _ (ne_of_gt hlen)
  rw [hmul]
  ring

/-- Witness for `door_position_round_trip`: the north wall of a plain
`10 × 10` rectangle room, a door of width `1`, and the wall midpoint `5`. -/
theorem door_position_round_trip_witness :
    doorWallLengthOffset DoorWall.north 10 10 RoomShape.rectangle none none
        none = ((10:ℚ), (0:ℚ)) ∧
    (0:ℚ) < 10 ∧ (0:ℚ) < 1 ∧
    ((1:ℚ) / 10 / 2 + 1/50 ≤ ((5:ℚ) - 0) / 10) ∧
    (((5:ℚ) - 0) / 10 ≤ 1 - 1 / 10 / 2 - 1/50) ∧
    doorHingeCoord 10 0
        (clampDoorPosition (some 1) 10
          (normalizeDoorPos
            (wallLengthOffset DoorWall.north 10 10 RoomShape.rectangle none
              none none).1
            (wallLengthOffset DoorWall.north 10 10 RoomShape.rectangle none
              none none).2 5)) 1
      + 1 / 2 = 5 :=
  ⟨by norm_num [doorWallLengthOffset, isLShapeActive, numTruthy],
   by norm_num, by norm_num, by norm_num, by norm_num,
   door_position_round_trip DoorWall.north 10 10 RoomShape.rectangle none
     none none 10 0 5 1
     (by norm_num [doorWallLengthOffset, isLShapeActive, numTruthy])
     (by norm_num) (by norm_num) (by norm_num) (by norm_num)⟩

/-- Claim C10 (amended): with any falsy cutout field, the inside test and the
`Door` wall-length/offset table behave exactly as for a rectangle room, and
the room outline falls back to the rectangle path when the cutout width or
height is falsy; but when only the corner is missing (with truthy cutout
dimensions) `getRoomPath` draws the top-right L outline — its `switch`'s
`default` arm — instead of the rectangle. -/
theorem missing_cutout_rectangle_fallback :
    (∀ (x y w h rw rh : ℚ) (cwo cho : Option ℚ)
        (corner : Option CutoutCorner),
      (¬ numTruthy cwo ∨ ¬ numTruthy cho ∨ corner = none) →
      isInsideRoom x y w h rw rh RoomShape.l_shape cwo cho corner =
        isInsideRoom x y w h rw rh RoomShape.rectangle none none none) ∧
    (∀ (wall : DoorWall) (rw rh : ℚ) (cwo cho : Option ℚ)
        (corner : Option CutoutCorner),
      (¬ numTruthy cwo ∨ ¬ numTruthy cho ∨ corner = none) →
      doorWallLengthOffset wall rw rh RoomShape.l_shape cwo cho corner =
        doorWallLengthOffset wall rw rh RoomShape.rectangle none none none) ∧
    (∀ (rw rh s : ℚ) (cwo cho : Option ℚ) (corner : Option CutoutCorner),
      (¬ numTruthy cwo ∨ ¬ numTruthy cho) →
      getRoomPath rw rh s RoomShape.l_shape cwo cho corner =
        getRoomPath rw rh s RoomShape.rectangle none none none) ∧
    (∀ (rw rh s cw ch : ℚ), cw ≠ 0 → ch ≠ 0 →
      getRoomPath rw rh s RoomShape.l_shape (some cw) (some ch) none =
        [((0:ℚ), (0:ℚ)), (rw * s - cw * s, 0), (rw * s - cw * s, ch * s),
         (rw * s, ch * s), (rw * s, rh * s), (0, rh * s)]) := by
  refine ⟨?_, ?_, ?_, ?_⟩
  · intro x y w h rw rh cwo cho corner hfalsy
    have hg : RoomShape.l_shape = RoomShape.rectangle ∨
        ¬ numTruthy cwo = true ∨ ¬ numTruthy cho = true ∨
        corner.isNone = true := by
      rcases hfalsy with hc | hc | hc
      · exact Or.inr (Or.inl hc)
      · exact Or.inr (Or.inr (Or.inl hc))
      · subst hc
        exact Or.inr (Or.inr (Or.inr rfl))
    simp only [isInsideRoom]
    by_cases hb : x < 0 ∨ y < 0 ∨ x + w > rw ∨ y + h > rh
    · rw [if_pos hb, if_pos hb]
    · rw [if_neg hb, if_neg hb, if_pos hg, if_pos (Or.inl trivial)]
  · intro wall rw rh cwo cho corner hfalsy
    have hL : isLShapeActive RoomShape.l_shape cwo cho corner = false := by
      rcases hfalsy with hc | hc | hc
      · have hc' : numTruthy cwo = false := by
          revert hc
          cases numTruthy cwo <;> simp
        simp [isLShapeActive, hc']
      · have hc' : numTruthy cho = false := by
          revert hc
          cases numTruthy cho <;> simp
        simp [isLShapeActive, hc']
      · subst hc
        simp [isLShapeActive]
    have hR : isLShapeActive RoomShape.rectangle none none none = false := by
      simp [isLShapeActive, numTruthy]
    cases wall <;> simp [doorWallLengthOffset, hL, hR]
  · intro rw rh s cwo cho corner hfalsy
    have hg : RoomShape.l_shape = RoomShape.rectangle ∨
        ¬ numTruthy cwo = true ∨ ¬ numTruthy cho = true := by
      rcases hfalsy with hc | hc
      · exact Or.inr (Or.inl hc)
      · exact Or.inr (Or.inr hc)
    simp only [getRoomPath]
    rw [if_pos hg, if_pos (Or.inl trivial)]
  · intro rw rh s cw ch hcw hch
    simp [getRoomPath, numTruthy, hcw, hch]

/-- Witness for `missing_cutout_rectangle_fallback`: each conjunct applied at
concrete inputs (zero cutout width, all-null cutout fields, missing corner). -/
theorem missing_cutout_rectangle_fallback_witness :
    isInsideRoom 1 1 2 2 10 10 RoomShape.l_shape (some 0) (some 4)
        (some CutoutCorner.top_left) =
      isInsideRoom 1 1 2 2 10 10 RoomShape.rectangle none none none ∧
    doorWallLengthOffset DoorWall.north 10 10 RoomShape.l_shape none none
        none =
      doorWallLengthOffset DoorWall.north 10 10 RoomShape.rectangle none none
        none ∧
    getRoomPath 10 10 1 RoomShape.l_shape (some 0) (some 4)
        (some CutoutCorner.top_left) =
      getRoomPath 10 10 1 RoomShape.rectangle none none none ∧
    getRoomPath 10 10 1 RoomShape.l_shape (some 4) (some 4) none =
      [((0:ℚ), (0:ℚ)), (10 * 1 - 4 * 1, 0), (10 * 1 - 4 * 1, 4 * 1),
       (10 * 1, 4 * 1), (10 * 1, 10 * 1), (0, 10 * 1)] :=
  ⟨missing_cutout_rectangle_fallback.1 1 1 2 2 10 10 (some 0) (some 4)
      (some CutoutCorner.top_left) (Or.inl (by simp [numTruthy])),
   missing_cutout_rectangle_fallback.2.1 DoorWall.north 10 10 none none none
      (Or.inl (by simp [numTruthy])),
   missing_cutout_rectangle_fallback.2.2.1 10 10 1 (some 0) (some 4)
      (some CutoutCorner.top_left) (Or.inl (by simp [numTruthy])),
   missing_cutout_rectangle_fallback.2.2.2 10 10 1 4 4 (by norm_num)
      (by norm_num)⟩

end InventoryLayout
